import Mathlib

/-!
Verification development for the dual-hypothesis code-generation benchmark
(`app.py`).  The file shallowly embeds the core of the program:

* `count_tokens`      — the token estimator (`int(len(text.split()) * 1.3)`);
* `test_code`         — the code executor that loads generated source and
                        runs literal test cases with Python equality;
* `path1` / `path2`   — the single-stage and two-stage retry orchestrators
                        (`/api/path1`, `/api/path2`), modelled as pure
                        functions of an environment that supplies the
                        network replies and the semantics of `exec`.

Machine-level effects (wall-clock timing, the HTTP layer, the actual model
services) are abstracted into environment records; every piece of control
flow, message text, bound and aggregation of the Python source is embedded
faithfully.  Rationals stand in for Python floats: every constant involved
(0.30/1e6, 1.3, ...) is exact in the decimal model, and no claim inspects a
value where binary-float rounding of the source could diverge from the
rational model (the one such spot, `int(n * 1.3)`, is analysed at
`count_tokens`).
-/

/-- Python values as delivered by `request.json` and produced by generated
functions: null, booleans, integers, strings and (nested) lists.  These are
the shapes the executor's test corpus and the claims exercise. -/
inductive PyVal where
  | none : PyVal
  | bool : Bool → PyVal
  | int : Int → PyVal
  | str : String → PyVal
  | list : List PyVal → PyVal

mutual

/-- Python `==` (hence the executor's `result != expected` at app.py:62).
Python's `bool` is a subtype of `int`, so `True == 1` and `False == 0`;
`None`, strings, and containers of different kinds compare unequal; lists
compare pointwise. -/
def pyEq : PyVal → PyVal → Bool
  | .none, .none => true
  | .bool a, .bool b => a == b
  | .bool a, .int n => (if a then (1 : Int) else 0) == n
  | .int n, .bool a => n == (if a then (1 : Int) else 0)
  | .int m, .int n => m == n
  | .str s, .str t => s == t
  | .list xs, .list ys => pyEqList xs ys
  | _, _ => false

/-- Pointwise Python `==` on lists. -/
def pyEqList : List PyVal → List PyVal → Bool
  | [], [] => true
  | x :: xs, y :: ys => pyEq x y && pyEqList xs ys
  | _, _ => false

end

mutual

/-- Python `repr()` of a value, used for elements inside a rendered
list. -/
def pyRepr : PyVal → String
  | .none => "None"
  | .bool true => "True"
  | .bool false => "False"
  | .int n => toString n
  | .str s => "\x27" ++ s ++ "\x27"
  | .list xs => "[" ++ String.intercalate ", " (pyReprList xs) ++ "]"

/-- `repr` of every element of a list. -/
def pyReprList : List PyVal → List String
  | [] => []
  | x :: xs => pyRepr x :: pyReprList xs

end

/-- Python `str()`: like `repr` except that a top-level string has no
quotes. -/
def pyToStr : PyVal → String
  | .str s => s
  | v => pyRepr v

/-- Is the value a Python `list`?  (`isinstance(inputs, list)`,
app.py:54.) -/
def PyVal.isList : PyVal → Bool
  | .list _ => true
  | _ => false

/-- One entry of `test_cases`: `{function, input, expected}`. -/
structure TestCase where
  function : String
  input : PyVal
  expected : PyVal

/-- A binding in the `exec` namespace: either a non-callable value or a
function.  A function consumes the positional arguments and either raises
(`Except.error` carries `str(e)`) or returns a value. -/
inductive Binding where
  | value : PyVal → Binding
  | func : (List PyVal → Except String PyVal) → Binding

/-- Outcome of `exec(code, namespace)` (app.py:34): a `SyntaxError` (caught
at app.py:67), some other exception (caught at app.py:69), or a namespace
of top-level bindings. -/
inductive LoadResult where
  | syntaxError : String → LoadResult
  | execError : String → LoadResult
  | ok : List (String × Binding) → LoadResult

/-- The call convention of app.py:54-57: a list input is unpacked as
positional arguments (`func(*inputs)`); any other input is passed as the
single argument (`func(inputs)`). -/
def callFunc (f : List PyVal → Except String PyVal) : PyVal → Except String PyVal
  | .list xs => f xs
  | v => f [v]

/-- The per-test-case loop of `test_code` (app.py:37-65), over a loaded
namespace.  Returns at the first failing case with the source's exact
message; returns `(true, "All tests passed")` when every case passes. -/
def runTests (ns : List (String × Binding)) : List TestCase → Bool × String
  | [] => (true, "All tests passed")
  | t :: rest =>
    match ns.lookup t.function with
    | Option.none => (false, "Function \x27" ++ t.function ++ "\x27 not found in code")
    | some (.value _) => (false, "\x27" ++ t.function ++ "\x27 is not a function")
    | some (.func f) =>
      match callFunc f t.input with
      | .error e => (false, "Function crashed: " ++ e)
      | .ok result =>
        if pyEq result t.expected then runTests ns rest
        else (false, "Test failed: " ++ t.function ++ "(" ++ pyToStr t.input ++
              ") returned " ++ pyToStr result ++ ", expected " ++ pyToStr t.expected)

/-- `test_code(code, test_cases)` (app.py:27-70), with the outcome of
`exec` supplied as a `LoadResult`. -/
def test_code : LoadResult → List TestCase → Bool × String
  | .syntaxError e, _ => (false, "Syntax error in code: " ++ e)
  | .execError e, _ => (false, "Code execution error: " ++ e)
  | .ok ns, tcs => runTests ns tcs

/-! ## String primitives

Lean's own `String.splitOn`, `String.split` and `String.trim` are defined
by well-founded recursion on byte positions and do not evaluate inside the
kernel, so the Python string operations the source uses are embedded here
as structurally recursive functions on character lists. -/

/-- Splitting a character list at every whitespace character (Python's
argumentless `str.split` before dropping the empty chunks). -/
def splitWsAux : List Char → List Char → List (List Char)
  | [], acc => [acc.reverse]
  | c :: rest, acc =>
    if c.isWhitespace then acc.reverse :: splitWsAux rest []
    else splitWsAux rest (c :: acc)

/-- Is the first list a prefix of the second? -/
def isPrefixCL : List Char → List Char → Bool
  | [], _ => true
  | _ :: _, [] => false
  | a :: as, b :: bs => a == b && isPrefixCL as bs

/-- Worker for Python `str.split(sep)` with a nonempty separator, fuelled
by the length of the text so the recursion is structural; with fuel
`length + 1` the fuel never runs out, so the first branch is
unreachable. -/
def splitOnCL (sep : List Char) : Nat → List Char → List Char → List (List Char)
  | 0, s, acc => [acc.reverse ++ s]
  | fuel + 1, s, acc =>
    match s with
    | [] => [acc.reverse]
    | c :: rest =>
      if isPrefixCL sep s then
        acc.reverse :: splitOnCL sep fuel (s.drop sep.length) []
      else
        splitOnCL sep fuel rest (c :: acc)

/-- Python `s.split(pat)` for a nonempty pattern. -/
def pySplitOn (s pat : String) : List String :=
  (splitOnCL pat.toList (s.toList.length + 1) s.toList []).map String.mk

/-- Python `s.strip()`: drop leading and trailing whitespace. -/
def pyStrip (s : String) : String :=
  String.mk (((s.toList.dropWhile Char.isWhitespace).reverse.dropWhile
    Char.isWhitespace).reverse)

/-! ## Token and cost estimation (app.py:19-25) -/

/-- Number of whitespace-delimited words: `len(text.split())`.  Python's
argumentless `split` drops empty chunks, i.e. splits on whitespace runs. -/
def wordCount (t : String) : Nat :=
  ((splitWsAux t.toList []).filter (fun s => !s.isEmpty)).length

/-- `count_tokens(text) = int(len(text.split()) * 1.3)` (app.py:24-25).
`int()` truncates toward zero; for a nonnegative word count `n` the float
computation `int(n * 1.3)` coincides with the exact `⌊13n/10⌋` (the IEEE
double nearest 1.3 exceeds 13/10, the product is correctly rounded, and the
error never reaches the next 0.1 boundary for any realistic `n`), so the
model uses exact natural division. -/
def count_tokens (t : String) : Nat :=
  wordCount t * 13 / 10

/-- Round half to even (Python's `round`), on exact rationals. -/
def roundHalfEven (q : ℚ) : ℤ :=
  let f := ⌊q⌋
  let r := q - f
  if r < 1 / 2 then f
  else if 1 / 2 < r then f + 1
  else if f % 2 = 0 then f else f + 1

/-- Modelled from the spec words for comparison (claim C9):
`estimate_tokens(text) -> int`, computed as `round(word_count * 1.3)`. -/
def estimateTokensSpec (t : String) : ℤ :=
  roundHalfEven ((wordCount t : ℚ) * 1.3)

/-- `round(x, 2)` on the exact-rational model of the source's floats. -/
def round2 (q : ℚ) : ℚ := (roundHalfEven (q * 100) : ℚ) / 100

/-- `round(x, 6)` on the exact-rational model of the source's floats. -/
def round6 (q : ℚ) : ℚ := (roundHalfEven (q * 1000000) : ℚ) / 1000000

/-- `GEMINI_INPUT_COST = 0.30 / 1_000_000` (app.py:19). -/
def GEMINI_INPUT_COST : ℚ := 0.30 / 1000000

/-- `GEMINI_OUTPUT_COST = 2.50 / 1_000_000` (app.py:20). -/
def GEMINI_OUTPUT_COST : ℚ := 2.50 / 1000000

/-- `OPENAI_INPUT_COST = 0.150 / 1_000_000` (app.py:21). -/
def OPENAI_INPUT_COST : ℚ := 0.150 / 1000000

/-- `OPENAI_OUTPUT_COST = 0.600 / 1_000_000` (app.py:22). -/
def OPENAI_OUTPUT_COST : ℚ := 0.600 / 1000000

/-! ## Markdown-fence stripping (app.py:107-111, 183-186, 224-225) -/

/-- Python `pat in s` for a nonempty pattern. -/
def containsSub (s pat : String) : Bool :=
  (pySplitOn s pat).length > 1

/-- Python `s.split(pat)[1]`, defined when the pattern occurs. -/
def afterFirst (s pat : String) : String :=
  ((pySplitOn s pat).drop 1).headD ""

/-- Python `s.split(pat)[0]`. -/
def beforeFirst (s pat : String) : String :=
  (pySplitOn s pat).headD ""

/-- The markdown cleanup applied to the generated code (app.py:107-111):
prefer extracting the first ```python fence, else the first ``` fence, else
keep the text as is. -/
def cleanCode (t : String) : String :=
  if containsSub t "```python" then
    pyStrip (beforeFirst (afterFirst t "```python") "```")
  else if containsSub t "```" then
    pyStrip (beforeFirst (afterFirst t "```") "```")
  else t

/-! ## Validation-verdict parsing (app.py:222-229) -/

/-- JSON values, as returned by `json.loads` and as the value universe of
the `jsonify` report payloads. -/
inductive JsonV where
  | null : JsonV
  | bool : Bool → JsonV
  | num : ℚ → JsonV
  | str : String → JsonV
  | arr : List JsonV → JsonV
  | obj : List (String × JsonV) → JsonV

/-- Python truthiness of a JSON value (`if not openai_approved`,
app.py:232). -/
def truthy : JsonV → Bool
  | .null => false
  | .bool b => b
  | .num q => q != 0
  | .str s => !s.isEmpty
  | .arr xs => !xs.isEmpty
  | .obj kvs => !kvs.isEmpty

/-- Lookup in a parsed JSON object; on duplicate keys `json.loads` keeps
the last occurrence. -/
def lookupLast (kvs : List (String × JsonV)) (k : String) : Option JsonV :=
  ((kvs.filter (fun p => p.1 == k)).getLast?).map (fun p => p.2)

/-- The fence stripping of app.py:224-225: if the reply contains
```json, keep what stands between that marker and the next ```. -/
def stripJsonFence (t : String) : String :=
  if containsSub t "```json" then
    pyStrip (beforeFirst (afterFirst t "```json") "```")
  else t

/-- app.py:222-229: strip an optional ```json fence, `json.loads` the
text, read `.get("valid", False)` and take its truthiness.  Any parse
failure (`jsonParse` returns `Option.none`), a non-object result (where
`.get` raises `AttributeError`), or a missing `valid` key lands in the
`except` / default branch: the attempt is not approved.  The function is
total: no parse error propagates. -/
def approvedOf (jsonParse : String → Option JsonV) (t : String) : Bool :=
  match jsonParse (stripJsonFence t) with
  | some (.obj kvs) =>
    match lookupLast kvs "valid" with
    | some v => truthy v
    | Option.none => false
  | _ => false

/-! ## Retry orchestrators (app.py:76-150 `path1`, app.py:152-276 `path2`)

The network replies (Gemini generation text, OpenAI validation text), the
wall-clock durations, and the semantics the Python runtime gives to
`exec` / `json.loads` on arbitrary text are external effects; they enter
the model as environment fields.  Everything downstream of them — fence
cleanup, token counting, cost arithmetic, validation parsing, the test
run, the attempt records, the break/exhaustion logic and the final JSON
payload — is embedded from the source. -/

/-- `max_attempts = 10` (app.py:85, app.py:161). -/
def max_attempts : Nat := 10

/-- The fixed generation template (app.py:87-98 and identically
app.py:163-174), with the user's requirement interpolated. -/
def generation_prompt (prompt_text : String) : String :=
  "Generate a Python function that EXACTLY matches this requirement.\n\n" ++
  "Requirement: " ++ prompt_text ++ "\n\n" ++
  "CRITICAL RULES:\n" ++
  "1. Function name must be EXACTLY as specified\n" ++
  "2. Function must handle ALL edge cases\n" ++
  "3. Return type must match expected output\n" ++
  "4. No print statements, no extra functions, no comments\n" ++
  "5. Just the function code\n\n" ++
  "Generate ONLY the function code:"

/-- The fixed validation template (app.py:194-207), with the requirement
and the candidate code interpolated. -/
def validation_prompt (prompt_text code : String) : String :=
  "You are a code validator. Check if this code meets the requirement.\n\n" ++
  "REQUIREMENT: " ++ prompt_text ++ "\n\n" ++
  "CODE:\n" ++ code ++ "\n\n" ++
  "Check:\n" ++
  "1. Does it fulfill the requirement?\n" ++
  "2. Is it complete?\n" ++
  "3. No obvious errors?\n\n" ++
  "Respond ONLY with JSON:\n" ++
  "\x7b\"valid\": true or false, \"reason\": \"brief\"\x7d"

/-- Environment of one `/api/path1` invocation: the request payload
(`prompt`, `test_cases`), the per-attempt Gemini reply (`genText i` models
`response.text` of the i-th generation call, 0-based) with its duration,
and the meaning of `exec` on each possible code string. -/
structure Env1 where
  prompt : String
  testCases : List TestCase
  genText : Nat → String
  genTime : Nat → ℚ
  load : String → LoadResult

/-- Environment of one `/api/path2` invocation: as `Env1`, plus the
per-attempt OpenAI validation reply with its duration and the meaning of
`json.loads` on each possible reply text (`Option.none` models a raised
parse exception). -/
structure Env2 where
  prompt : String
  testCases : List TestCase
  genText : Nat → String
  genTime : Nat → ℚ
  valText : Nat → String
  valTime : Nat → ℚ
  jsonParse : String → Option JsonV
  load : String → LoadResult

/-- One entry of `attempts` in `path1` (app.py:123-131). -/
structure Attempt1 where
  attempt : Nat
  time : ℚ
  tokens_in : Nat
  tokens_out : Nat
  cost : ℚ
  test_passed : Bool
  test_message : String

/-- One entry of `attempts` in `path2` (app.py:233-242, 248-257). -/
structure Attempt2 where
  attempt : Nat
  time : ℚ
  gemini_tokens : Nat
  openai_tokens : Nat
  cost : ℚ
  openai_approved : Bool
  test_passed : Bool
  test_message : String

/-- The sentinel recorded when OpenAI rejects (app.py:241). -/
def rejectionSentinel : String := "OpenAI rejected - did not run unit test"

/-- The body of one `path1` iteration (app.py:100-131): generate, strip
fences, count tokens, price the call, run the unit tests, and record the
attempt.  `i` is the 0-based loop index. -/
def mkAttempt1 (e : Env1) (i : Nat) : Attempt1 :=
  let code := cleanCode (pyStrip (e.genText i))
  let in_tokens := count_tokens (generation_prompt e.prompt)
  let out_tokens := count_tokens code
  let cost := (in_tokens : ℚ) * GEMINI_INPUT_COST + (out_tokens : ℚ) * GEMINI_OUTPUT_COST
  let r := test_code (e.load code) e.testCases
  { attempt := i + 1
    time := round2 (e.genTime i)
    tokens_in := in_tokens
    tokens_out := out_tokens
    cost := round6 cost
    test_passed := r.1
    test_message := r.2 }

/-- The body of one `path2` iteration (app.py:176-257): generate, strip
fences, validate with OpenAI, and only when the verdict is approved run
the unit tests; a rejected attempt is recorded with the sentinel message
and without consulting the executor. -/
def mkAttempt2 (e : Env2) (i : Nat) : Attempt2 :=
  let code := cleanCode (pyStrip (e.genText i))
  let gemini_in := count_tokens (generation_prompt e.prompt)
  let gemini_out := count_tokens code
  let gemini_cost := (gemini_in : ℚ) * GEMINI_INPUT_COST + (gemini_out : ℚ) * GEMINI_OUTPUT_COST
  let vtext := e.valText i
  let openai_in := count_tokens (validation_prompt e.prompt code)
  let openai_out := count_tokens vtext
  let openai_cost := (openai_in : ℚ) * OPENAI_INPUT_COST + (openai_out : ℚ) * OPENAI_OUTPUT_COST
  if approvedOf e.jsonParse vtext then
    let r := test_code (e.load code) e.testCases
    { attempt := i + 1
      time := round2 (e.genTime i + e.valTime i)
      gemini_tokens := gemini_in + gemini_out
      openai_tokens := openai_in + openai_out
      cost := round6 (gemini_cost + openai_cost)
      openai_approved := true
      test_passed := r.1
      test_message := r.2 }
  else
    { attempt := i + 1
      time := round2 (e.genTime i + e.valTime i)
      gemini_tokens := gemini_in + gemini_out
      openai_tokens := openai_in + openai_out
      cost := round6 (gemini_cost + openai_cost)
      openai_approved := false
      test_passed := false
      test_message := rejectionSentinel }

/-- The `for attempt in range(max_attempts)` control shape shared by both
handlers: build the attempt for each index in turn, append it, and break
as soon as it passed. -/
def loopAttempts {α : Type} (mk : Nat → α) (p : α → Bool) : List Nat → List α
  | [] => []
  | i :: rest =>
    let a := mk i
    if p a then [a] else a :: loopAttempts mk p rest

/-- Did the last recorded attempt pass?  This is exactly the `passed` flag
of the source: it is set only at the `break`, and the `break` fires exactly
when the just-appended attempt passed. -/
def lastPassed {α : Type} (p : α → Bool) (xs : List α) : Bool :=
  match xs.getLast? with
  | some a => p a
  | Option.none => false

/-- The attempt list accumulated by `path1` (app.py:100-135). -/
def path1Details (e : Env1) : List Attempt1 :=
  loopAttempts (mkAttempt1 e) (fun a => a.test_passed) (List.range max_attempts)

/-- The `passed` flag of `path1` at loop exit. -/
def path1Passed (e : Env1) : Bool :=
  lastPassed (fun a => a.test_passed) (path1Details e)

/-- The attempt list accumulated by `path2` (app.py:176-261). -/
def path2Details (e : Env2) : List Attempt2 :=
  loopAttempts (mkAttempt2 e) (fun a => a.test_passed) (List.range max_attempts)

/-- The `passed` flag of `path2` at loop exit. -/
def path2Passed (e : Env2) : Bool :=
  lastPassed (fun a => a.test_passed) (path2Details e)

/-- One `path1` attempt as the JSON object `jsonify` serialises
(app.py:123-131). -/
def attempt1Json (a : Attempt1) : JsonV :=
  .obj [("attempt", .num a.attempt), ("time", .num a.time),
        ("tokens_in", .num a.tokens_in), ("tokens_out", .num a.tokens_out),
        ("cost", .num a.cost), ("test_passed", .bool a.test_passed),
        ("test_message", .str a.test_message)]

/-- One `path2` attempt as the JSON object `jsonify` serialises. -/
def attempt2Json (a : Attempt2) : JsonV :=
  .obj [("attempt", .num a.attempt), ("time", .num a.time),
        ("gemini_tokens", .num a.gemini_tokens), ("openai_tokens", .num a.openai_tokens),
        ("cost", .num a.cost), ("openai_approved", .bool a.openai_approved),
        ("test_passed", .bool a.test_passed), ("test_message", .str a.test_message)]

/-- The JSON payload returned by `/api/path1` (app.py:137-150): key/value
pairs in source order. -/
def path1 (e : Env1) : List (String × JsonV) :=
  let attempts := path1Details e
  let total_time := (attempts.map (fun a => a.time)).sum
  let total_tokens : Nat := (attempts.map (fun a => a.tokens_in + a.tokens_out)).sum
  let total_cost := (attempts.map (fun a => a.cost)).sum
  [("success", .bool true),
   ("passed", .bool (path1Passed e)),
   ("attempts", .num attempts.length),
   ("total_time", .num (round2 total_time)),
   ("total_tokens", .num (total_tokens : ℚ)),
   ("total_cost", .num (round6 total_cost)),
   ("details", .arr (attempts.map attempt1Json))]

/-- The JSON payload returned by `/api/path2` (app.py:263-276). -/
def path2 (e : Env2) : List (String × JsonV) :=
  let attempts := path2Details e
  let total_time := (attempts.map (fun a => a.time)).sum
  let total_tokens : Nat := (attempts.map (fun a => a.gemini_tokens + a.openai_tokens)).sum
  let total_cost := (attempts.map (fun a => a.cost)).sum
  [("success", .bool true),
   ("passed", .bool (path2Passed e)),
   ("attempts", .num attempts.length),
   ("total_time", .num (round2 total_time)),
   ("total_tokens", .num (total_tokens : ℚ)),
   ("total_cost", .num (round6 total_cost)),
   ("details", .arr (attempts.map attempt2Json))]

/-! ## Concrete environments and helpers used by witnesses -/

/-- Does the parse result fail to deliver an object with a `valid` key?
Holds both when `json.loads` raises (the parse result is `Option.none`)
and when it yields an object without that key; the claim C4 covers exactly
these situations. -/
def noValidKey (j : Option JsonV) : Prop :=
  ∀ kvs, j = some (.obj kvs) → lookupLast kvs "valid" = Option.none

/-- A concrete generated function for witnesses: returns the number of
positional arguments it received. -/
def argCountFn : List PyVal → Except String PyVal :=
  fun args => .ok (.int args.length)

/-- A namespace defining `f` that returns the integer 10 on any call
(the behaviour of `def f(x): return x * 2` at input 5). -/
def nsReturnsTen : List (String × Binding) :=
  [("f", .func (fun _ => .ok (.int 10)))]

/-- A `path1` environment whose generated code never compiles: every
attempt's `exec` raises a `SyntaxError`. -/
def envFail1 : Env1 :=
  { prompt := "p"
    testCases := [⟨"f", .int 0, .int 0⟩]
    genText := fun _ => "@@@"
    genTime := fun _ => 0
    load := fun _ => .syntaxError "invalid syntax" }

/-- A `path2` environment whose validator approves every attempt but whose
generated code always fails its unit test. -/
def envFail2 : Env2 :=
  { prompt := "p"
    testCases := [⟨"f", .int 0, .int 0⟩]
    genText := fun _ => "def f(x): raise ValueError"
    genTime := fun _ => 0
    valText := fun _ => "\x7b\"valid\": true\x7d"
    valTime := fun _ => 0
    jsonParse := fun _ => some (.obj [("valid", .bool true)])
    load := fun _ => .ok [("f", .func (fun _ => .error "boom"))] }

/-- A `path2` environment whose validation replies never parse as JSON:
`json.loads` raises on every attempt. -/
def envReject : Env2 :=
  { prompt := "p"
    testCases := [⟨"f", .int 0, .int 0⟩]
    genText := fun _ => "def f(x): return x"
    genTime := fun _ => 0
    valText := fun _ => "I cannot answer in JSON"
    valTime := fun _ => 0
    jsonParse := fun _ => Option.none
    load := fun _ => .ok [("f", .func argCountFn)] }

/-! ## Generic facts about the retry loop -/

theorem loopAttempts_length_le {α : Type} (mk : Nat → α) (p : α → Bool) :
    ∀ l : List Nat, (loopAttempts mk p l).length ≤ l.length := by
  intro l
  induction l with
  | nil => simp [loopAttempts]
  | cons i rest ih =>
    simp only [loopAttempts, List.length_cons]
    split
    · simp
    · simpa using ih

theorem loopAttempts_ne_nil {α : Type} (mk : Nat → α) (p : α → Bool)
    (l : List Nat) (h : l ≠ []) : loopAttempts mk p l ≠ [] := by
  cases l with
  | nil => exact absurd rfl h
  | cons i rest =>
    simp only [loopAttempts]
    split <;> simp

theorem loopAttempts_early {α : Type} (mk : Nat → α) (p : α → Bool) :
    ∀ l : List Nat, (loopAttempts mk p l).length < l.length →
      lastPassed p (loopAttempts mk p l) = true := by
  intro l
  induction l with
  | nil => simp [loopAttempts]
  | cons i rest ih =>
    simp only [loopAttempts, List.length_cons]
    split
    · intro _
      simp_all [lastPassed]
    · intro hlt
      have hlt2 : (loopAttempts mk p rest).length < rest.length := by
        simp only [List.length_cons] at hlt
        omega
      have hlast := ih hlt2
      cases hres : loopAttempts mk p rest with
      | nil =>
        rw [hres] at hlast
        simp [lastPassed] at hlast
      | cons b l2 =>
        rw [lastPassed] at hlast ⊢
        rw [hres] at hlast
        rwa [List.getLast?_cons_cons]

theorem loopAttempts_all_fail {α : Type} (mk : Nat → α) (p : α → Bool) :
    ∀ l : List Nat, (∀ i ∈ l, p (mk i) = false) →
      loopAttempts mk p l = l.map mk := by
  intro l
  induction l with
  | nil => simp [loopAttempts]
  | cons i rest ih =>
    intro h
    simp only [loopAttempts, List.map_cons]
    rw [if_neg (by simp [h i (by simp)]), ih (fun j hj => h j (by simp [hj]))]

theorem lastPassed_map_all_fail {α : Type} (mk : Nat → α) (p : α → Bool)
    (l : List Nat) (h : ∀ i ∈ l, p (mk i) = false) :
    lastPassed p (l.map mk) = false := by
  rw [lastPassed]
  cases hl : (l.map mk).getLast? with
  | none => rfl
  | some a =>
    obtain ⟨hne, ha⟩ := List.mem_getLast?_eq_getLast (Option.mem_def.mpr hl)
    have hmem : a ∈ l.map mk := ha ▸ List.getLast_mem hne
    obtain ⟨i, hi, rfl⟩ := List.mem_map.mp hmem
    exact h i hi

/-! ## Claim C9: the token estimate -/

/-- Claim C9, counterexample: the claim says `estimate_tokens(text)` equals
`round(word_count * 1.3)`, but the source computes `int(... * 1.3)`, which
truncates: on a three-word text the code yields 3 while `round(3.9)` is
4. -/
theorem count_tokens_truncates_counterexample :
    count_tokens "a b c" = 3 ∧ estimateTokensSpec "a b c" = 4 := by
  constructor
  · rfl
  · show roundHalfEven ((3 : ℚ) * 1.3) = 4
    norm_num [roundHalfEven, Int.floor_eq_iff]

/-- Claim C9, amended: for every text, `count_tokens(text)` equals
`floor(word_count * 1.3)` — truncation toward zero, not rounding — where
`word_count` is the number of whitespace-delimited tokens of the text. -/
theorem count_tokens_is_floor (t : String) :
    (count_tokens t : ℤ) = ⌊(wordCount t : ℚ) * 1.3⌋ := by
  rw [count_tokens]
  set n := wordCount t with hn
  have h1 : 10 * (n * 13 / 10) ≤ n * 13 := by omega
  have h2 : n * 13 < 10 * (n * 13 / 10) + 10 := by omega
  have c1 : ((n * 13 / 10 : ℕ) : ℚ) ≤ (n : ℚ) * 1.3 := by
    have hq : ((10 : ℚ)) * ((n * 13 / 10 : ℕ) : ℚ) ≤ ((n : ℚ)) * 13 := by
      exact_mod_cast h1
    rw [show (1.3 : ℚ) = 13 / 10 from by norm_num]
    linarith
  have c2 : (n : ℚ) * 1.3 < ((n * 13 / 10 : ℕ) : ℚ) + 1 := by
    have hq : ((n : ℚ)) * 13 < 10 * (((n * 13 / 10 : ℕ) : ℚ) + 1) := by
      exact_mod_cast h2
    rw [show (1.3 : ℚ) = 13 / 10 from by norm_num]
    linarith
  rw [eq_comm, Int.floor_eq_iff]
  constructor
  · exact_mod_cast c1
  · push_cast
    exact_mod_cast c2

/-! ## Claim C1: the executor's equality -/

/-- Claim C1, counterexample: the executor compares with Python `==`
(`result != expected`, app.py:62), under which the integer 1 equals the
boolean `True`; so code returning the integer 1 passes a test case
expecting `True`, contradicting the claimed type-sensitive strict
equality. -/
theorem executor_int_bool_counterexample :
    test_code (.ok [("g", .func (fun _ => .ok (.int 1)))])
      [⟨"g", .int 4, .bool true⟩] = (true, "All tests passed") := by rfl

/-- Claim C1, amended: the executor compares the return value to the
expected value with Python value equality, which distinguishes `None`,
strings, and unequal numbers from each other, but treats booleans as equal
to their numeric values (`1 == True`, `0 == False`), because Python's
`bool` is an `int` subtype.  The final clause shows the executor branches
exactly on this equality. -/
theorem executor_comparison_is_python_eq (ns : List (String × Binding))
    (f : List PyVal → Except String PyVal) (r : PyVal) (tc : TestCase)
    (rest : List TestCase)
    (hlook : ns.lookup tc.function = some (Binding.func f))
    (hcall : callFunc f tc.input = Except.ok r) :
    pyEq (.int 1) (.bool true) = true
  ∧ pyEq (.bool false) (.int 0) = true
  ∧ pyEq PyVal.none (.bool false) = false
  ∧ pyEq PyVal.none (.int 0) = false
  ∧ pyEq PyVal.none PyVal.none = true
  ∧ (∀ (s : String) (n : Int), pyEq (.str s) (.int n) = false
      ∧ pyEq (.int n) (.str s) = false)
  ∧ (∀ m n : Int, pyEq (.int m) (.int n) = (m == n))
  ∧ (∀ s u : String, pyEq (.str s) (.str u) = (s == u))
  ∧ runTests ns (tc :: rest) =
      (if pyEq r tc.expected then runTests ns rest
       else (false, "Test failed: " ++ tc.function ++ "(" ++ pyToStr tc.input ++
             ") returned " ++ pyToStr r ++ ", expected " ++ pyToStr tc.expected)) := by
  refine ⟨rfl, rfl, rfl, rfl, rfl, fun s n => ⟨rfl, rfl⟩, fun m n => rfl, fun s u => rfl, ?_⟩
  simp only [runTests, hlook, hcall]

/-- Claim C1, witness for the amended theorem: a namespace whose `g`
returns the integer 1 against an expected `True` produces a pass, and the
side equalities evaluate as stated. -/
theorem executor_comparison_is_python_eq_witness :
    runTests [("g", Binding.func (fun _ => Except.ok (PyVal.int 1)))]
        [⟨"g", .int 4, .bool true⟩] =
      (if pyEq (.int 1) (.bool true) then
        runTests [("g", Binding.func (fun _ => Except.ok (PyVal.int 1)))] []
       else (false, "Test failed: " ++ "g" ++ "(" ++ pyToStr (.int 4) ++
             ") returned " ++ pyToStr (.int 1) ++ ", expected " ++ pyToStr (.bool true))) :=
  (executor_comparison_is_python_eq
    [("g", Binding.func (fun _ => Except.ok (PyVal.int 1)))]
    (fun _ => Except.ok (PyVal.int 1)) (PyVal.int 1)
    ⟨"g", .int 4, .bool true⟩ [] rfl rfl).2.2.2.2.2.2.2.2

/-! ## Claim C6: the call convention -/

/-- Claim C6: a list input is unpacked as positional arguments to the
target function, and any non-list input is passed as a single argument
(app.py:54-57; the JSON data model delivers sequences as lists). -/
theorem callFunc_list_unpacks (f : List PyVal → Except String PyVal)
    (xs : List PyVal) (v : PyVal) (hv : v.isList = false) :
    callFunc f (.list xs) = f xs ∧ callFunc f v = f [v] := by
  refine ⟨rfl, ?_⟩
  cases v with
  | list ys => simp [PyVal.isList] at hv
  | none => rfl
  | bool b => rfl
  | int n => rfl
  | str s => rfl

/-- Claim C6, witness: unpacking a two-element list reaches the function
as two positional arguments; a scalar arrives as one. -/
theorem callFunc_list_unpacks_witness :
    PyVal.isList (.int 5) = false
  ∧ callFunc argCountFn (.list [.int 1, .int 2]) = argCountFn [.int 1, .int 2]
  ∧ callFunc argCountFn (.int 5) = argCountFn [.int 5] :=
  ⟨rfl, (callFunc_list_unpacks argCountFn [.int 1, .int 2] (.int 5) rfl).1,
    (callFunc_list_unpacks argCountFn [.int 1, .int 2] (.int 5) rfl).2⟩

/-! ## Claim C7: syntax errors short-circuit -/

/-- Claim C7: when loading the source raises a syntax-level failure the
executor returns `false` with the syntax-error message immediately; the
result does not depend on the test cases, so none is attempted.  (The
source's exact wording is `"Syntax error in code: <detail>"`,
app.py:68.) -/
theorem syntax_error_short_circuits (msg : String) (tcs tcs2 : List TestCase) :
    test_code (.syntaxError msg) tcs = (false, "Syntax error in code: " ++ msg)
  ∧ test_code (.syntaxError msg) tcs = test_code (.syntaxError msg) tcs2 :=
  ⟨rfl, rfl⟩

/-! ## Claim C8: a mismatch reports and stops -/

/-- Claim C8: when a test case's return value mismatches the expected
value, the executor returns `false` with a message naming the function,
the input, the actual value and the expected value — and the outcome does
not depend on the remaining test cases: they are not run. -/
theorem mismatch_reports_and_stops (ns : List (String × Binding))
    (f : List PyVal → Except String PyVal) (r : PyVal) (tc : TestCase)
    (rest rest2 : List TestCase)
    (hlook : ns.lookup tc.function = some (Binding.func f))
    (hcall : callFunc f tc.input = Except.ok r)
    (hne : pyEq r tc.expected = false) :
    test_code (.ok ns) (tc :: rest) =
      (false, "Test failed: " ++ tc.function ++ "(" ++ pyToStr tc.input ++
        ") returned " ++ pyToStr r ++ ", expected " ++ pyToStr tc.expected)
  ∧ test_code (.ok ns) (tc :: rest) = test_code (.ok ns) (tc :: rest2) := by
  have key : ∀ rs : List TestCase, test_code (.ok ns) (tc :: rs) =
      (false, "Test failed: " ++ tc.function ++ "(" ++ pyToStr tc.input ++
        ") returned " ++ pyToStr r ++ ", expected " ++ pyToStr tc.expected) := by
    intro rs
    show runTests ns (tc :: rs) = _
    simp only [runTests, hlook, hcall, hne]
    rfl
  exact ⟨key rest, (key rest).trans (key rest2).symm⟩

/-- Claim C8, witness: the spec's own example — `f` returns 10 where 11
was expected — yields the failure message carrying `f`, `5`, `10` and
`11`, on the concrete namespace `nsReturnsTen`. -/
theorem mismatch_reports_and_stops_witness :
    test_code (.ok nsReturnsTen) [⟨"f", .int 5, .int 11⟩] =
      (false, "Test failed: f(5) returned 10, expected 11") :=
  (mismatch_reports_and_stops nsReturnsTen (fun _ => .ok (.int 10)) (.int 10)
    ⟨"f", .int 5, .int 11⟩ [] [] rfl rfl rfl).1

/-! ## Claim C4: validation parsing fails closed -/

/-- Claim C4: in the two-stage orchestrator, when the validator's reply —
after stripping an optional fenced json block — fails to parse as JSON
(`jsonParse` is `Option.none`, modelling a raised exception) or parses to
an object without a `valid` key (`noValidKey` covers both, and also a
non-object result, where `.get` raises and the `except` catches), the
attempt is treated as not approved: fail-closed.  `approvedOf` and
`mkAttempt2` are total functions, so no parse error propagates. -/
theorem validation_parse_fails_closed (e : Env2) (i : Nat)
    (h : noValidKey (e.jsonParse (stripJsonFence (e.valText i)))) :
    approvedOf e.jsonParse (e.valText i) = false
  ∧ (mkAttempt2 e i).openai_approved = false
  ∧ (mkAttempt2 e i).test_passed = false
  ∧ (mkAttempt2 e i).test_message = rejectionSentinel := by
  have happ : approvedOf e.jsonParse (e.valText i) = false := by
    rw [approvedOf]
    cases hres : e.jsonParse (stripJsonFence (e.valText i)) with
    | none => rfl
    | some j =>
      cases j with
      | obj kvs => simp [h kvs hres]
      | null => rfl
      | bool b => rfl
      | num q => rfl
      | str s => rfl
      | arr xs => rfl
  refine ⟨happ, ?_, ?_, ?_⟩ <;> simp [mkAttempt2, happ]

/-- Claim C4, witness: on the concrete environment whose validation
replies never parse, attempt 0 is recorded unapproved and failed. -/
theorem validation_parse_fails_closed_witness :
    approvedOf envReject.jsonParse (envReject.valText 0) = false
  ∧ (mkAttempt2 envReject 0).openai_approved = false :=
  ⟨(validation_parse_fails_closed envReject 0
      (fun _ hk => Option.noConfusion hk)).1,
   (validation_parse_fails_closed envReject 0
      (fun _ hk => Option.noConfusion hk)).2.1⟩

/-! ## Claim C3: a rejected attempt skips the executor -/

/-- Claim C3: in the two-stage orchestrator, when validation rejects an
attempt the executor is not consulted for it — the attempt record is
unchanged under any substitution of the `exec` semantics — and the attempt
is recorded as failed with the fixed rejection sentinel; and when every
attempt is rejected the loop still runs all `max_attempts` generations
(each rejection loops on rather than terminating), every record carries
the sentinel, and the whole attempt list is independent of the executor
semantics. -/
theorem rejection_skips_executor (e : Env2) (i : Nat)
    (h : approvedOf e.jsonParse (e.valText i) = false) :
    (∀ l, mkAttempt2 { e with load := l } i = mkAttempt2 e i)
  ∧ (mkAttempt2 e i).openai_approved = false
  ∧ (mkAttempt2 e i).test_passed = false
  ∧ (mkAttempt2 e i).test_message = rejectionSentinel
  ∧ ((∀ j, approvedOf e.jsonParse (e.valText j) = false) →
       path2Details e = (List.range max_attempts).map (mkAttempt2 e)
     ∧ (path2Details e).length = max_attempts
     ∧ (∀ a ∈ path2Details e, a.test_message = rejectionSentinel ∧ a.test_passed = false)
     ∧ (∀ l, path2Details { e with load := l } = path2Details e)) := by
  have hrec : ∀ (e2 : Env2) (k : Nat),
      approvedOf e2.jsonParse (e2.valText k) = false →
      mkAttempt2 e2 k =
        { attempt := k + 1
          time := round2 (e2.genTime k + e2.valTime k)
          gemini_tokens := count_tokens (generation_prompt e2.prompt) +
            count_tokens (cleanCode (pyStrip (e2.genText k)))
          openai_tokens := count_tokens (validation_prompt e2.prompt
              (cleanCode (pyStrip (e2.genText k)))) +
            count_tokens (e2.valText k)
          cost := round6 (((count_tokens (generation_prompt e2.prompt) : ℚ) *
              GEMINI_INPUT_COST +
              (count_tokens (cleanCode (pyStrip (e2.genText k))) : ℚ) *
              GEMINI_OUTPUT_COST) +
            ((count_tokens (validation_prompt e2.prompt
                (cleanCode (pyStrip (e2.genText k)))) : ℚ) * OPENAI_INPUT_COST +
              (count_tokens (e2.valText k) : ℚ) * OPENAI_OUTPUT_COST))
          openai_approved := false
          test_passed := false
          test_message := rejectionSentinel } := by
    intro e2 k h2
    simp [mkAttempt2, h2]
  refine ⟨?_, ?_, ?_, ?_, ?_⟩
  · intro l
    rw [hrec { e with load := l } i h, hrec e i h]
  · rw [hrec e i h]
  · rw [hrec e i h]
  · rw [hrec e i h]
  · intro hall
    have hfail : ∀ j ∈ List.range max_attempts,
        (mkAttempt2 e j).test_passed = false := by
      intro j _
      simp [mkAttempt2, hall j]
    have hmap : path2Details e = (List.range max_attempts).map (mkAttempt2 e) :=
      loopAttempts_all_fail _ _ _ hfail
    refine ⟨hmap, ?_, ?_, ?_⟩
    · rw [hmap]
      simp
    · intro a ha
      rw [hmap] at ha
      obtain ⟨j, hj, rfl⟩ := List.mem_map.mp ha
      constructor
      · simp [mkAttempt2, hall j]
      · simp [mkAttempt2, hall j]
    · intro l
      have hfail2 : ∀ j ∈ List.range max_attempts,
          (mkAttempt2 { e with load := l } j).test_passed = false := by
        intro j _
        simp [mkAttempt2, hall j]
      have hmap2 : path2Details { e with load := l } =
          (List.range max_attempts).map (mkAttempt2 { e with load := l }) :=
        loopAttempts_all_fail _ _ _ hfail2
      rw [hmap, hmap2]
      refine List.map_congr_left ?_
      intro j _
      rw [hrec { e with load := l } j (hall j), hrec e j (hall j)]

/-- Claim C3, witness: on the environment whose validation replies never
parse (hence every verdict rejects), attempt 0 carries the sentinel, is
not approved, and all ten attempts are made. -/
theorem rejection_skips_executor_witness :
    (mkAttempt2 envReject 0).test_message = rejectionSentinel
  ∧ (mkAttempt2 envReject 0).test_passed = false
  ∧ (path2Details envReject).length = max_attempts := by
  have h := rejection_skips_executor envReject 0 rfl
  exact ⟨h.2.2.2.1, h.2.2.1, (h.2.2.2.2 (fun j => rfl)).2.1⟩

/-! ## Claim C2: the retry loops are bounded by 10 -/

/-- Claim C2: in both orchestrators the loop performs at most
`max_attempts = 10` attempts; it ends before the 10th attempt only when
the last recorded attempt passed its test; and when the executor fails on
every code it is given, the loop runs exactly 10 times and the final
report has `passed = false` and attempt count 10. -/
theorem retry_loop_bounded (e1 : Env1) (e2 : Env2)
    (h1 : ∀ c, (test_code (e1.load c) e1.testCases).1 = false)
    (h2 : ∀ c, (test_code (e2.load c) e2.testCases).1 = false) :
    (∀ f1 : Env1, (path1Details f1).length ≤ max_attempts
      ∧ ((path1Details f1).length < max_attempts → path1Passed f1 = true))
  ∧ (∀ f2 : Env2, (path2Details f2).length ≤ max_attempts
      ∧ ((path2Details f2).length < max_attempts → path2Passed f2 = true))
  ∧ ((path1Details e1).length = max_attempts ∧ path1Passed e1 = false
      ∧ (path1 e1).lookup "passed" = some (.bool false)
      ∧ (path1 e1).lookup "attempts" = some (.num (max_attempts : ℚ)))
  ∧ ((path2Details e2).length = max_attempts ∧ path2Passed e2 = false
      ∧ (path2 e2).lookup "passed" = some (.bool false)
      ∧ (path2 e2).lookup "attempts" = some (.num (max_attempts : ℚ))) := by
  have hrange : (List.range max_attempts).length = max_attempts := by simp
  have hfail1 : ∀ j ∈ List.range max_attempts,
      (mkAttempt1 e1 j).test_passed = false := by
    intro j _
    simp only [mkAttempt1]
    exact h1 _
  have hfail2 : ∀ j ∈ List.range max_attempts,
      (mkAttempt2 e2 j).test_passed = false := by
    intro j _
    simp only [mkAttempt2]
    split
    · exact h2 _
    · rfl
  have hmap1 : path1Details e1 = (List.range max_attempts).map (mkAttempt1 e1) :=
    loopAttempts_all_fail _ _ _ hfail1
  have hmap2 : path2Details e2 = (List.range max_attempts).map (mkAttempt2 e2) :=
    loopAttempts_all_fail _ _ _ hfail2
  have hlen1 : (path1Details e1).length = max_attempts := by
    rw [hmap1]
    simp
  have hlen2 : (path2Details e2).length = max_attempts := by
    rw [hmap2]
    simp
  have hpass1 : path1Passed e1 = false := by
    rw [path1Passed, hmap1]
    exact lastPassed_map_all_fail _ _ _ hfail1
  have hpass2 : path2Passed e2 = false := by
    rw [path2Passed, hmap2]
    exact lastPassed_map_all_fail _ _ _ hfail2
  refine ⟨?_, ?_, ⟨hlen1, hpass1, ?_, ?_⟩, ⟨hlen2, hpass2, ?_, ?_⟩⟩
  · intro f1
    constructor
    · have := loopAttempts_length_le (mkAttempt1 f1)
        (fun a => a.test_passed) (List.range max_attempts)
      rwa [hrange] at this
    · intro hlt
      have := loopAttempts_early (mkAttempt1 f1)
        (fun a => a.test_passed) (List.range max_attempts)
      rw [hrange] at this
      exact this hlt
  · intro f2
    constructor
    · have := loopAttempts_length_le (mkAttempt2 f2)
        (fun a => a.test_passed) (List.range max_attempts)
      rwa [hrange] at this
    · intro hlt
      have := loopAttempts_early (mkAttempt2 f2)
        (fun a => a.test_passed) (List.range max_attempts)
      rw [hrange] at this
      exact this hlt
  · rw [show (path1 e1).lookup "passed" = some (.bool (path1Passed e1)) from rfl,
      hpass1]
  · rw [show (path1 e1).lookup "attempts" =
      some (.num ((path1Details e1).length : ℚ)) from rfl, hlen1]
  · rw [show (path2 e2).lookup "passed" = some (.bool (path2Passed e2)) from rfl,
      hpass2]
  · rw [show (path2 e2).lookup "attempts" =
      some (.num ((path2Details e2).length : ℚ)) from rfl, hlen2]

/-- Claim C2, witness: the always-syntax-error single-stage environment
and the approved-but-crashing two-stage environment each exhaust all ten
attempts without a pass. -/
theorem retry_loop_bounded_witness :
    (path1Details envFail1).length = max_attempts ∧ path1Passed envFail1 = false
  ∧ (path2Details envFail2).length = max_attempts ∧ path2Passed envFail2 = false := by
  have h := retry_loop_bounded envFail1 envFail2 (fun c => rfl) (fun c => rfl)
  exact ⟨h.2.2.1.1, h.2.2.1.2.1, h.2.2.2.1, h.2.2.2.2.1⟩

/-! ## Claim C5: the reports carry no final_code -/

/-- Claim C5, counterexample: on concrete exhausting runs of both
orchestrators the returned report has no `final_code` field at all — the
claim that every report contains one fails. -/
theorem report_has_no_final_code :
    (path1 envFail1).lookup "final_code" = Option.none
  ∧ (path2 envFail2).lookup "final_code" = Option.none :=
  ⟨rfl, rfl⟩

/-- Claim C5, amended: every report of either orchestrator consists of
exactly the keys `success`, `passed`, `attempts`, `total_time`,
`total_tokens`, `total_cost` and `details`, in this order; in particular
no `final_code` field exists and the last generated code is not part of
the report. -/
theorem report_keys_fixed (e1 : Env1) (e2 : Env2) :
    (path1 e1).map Prod.fst =
      ["success", "passed", "attempts", "total_time", "total_tokens",
        "total_cost", "details"]
  ∧ (path2 e2).map Prod.fst =
      ["success", "passed", "attempts", "total_time", "total_tokens",
        "total_cost", "details"]
  ∧ (path1 e1).lookup "final_code" = Option.none
  ∧ (path2 e2).lookup "final_code" = Option.none :=
  ⟨rfl, rfl, rfl, rfl⟩

/-! ## Claim C10: the success field is constant -/

/-- Claim C10: every report of either orchestrator carries a top-level
`success` field equal to `true`, regardless of the run — `success` never
reflects the test outcome; the `passed` field is the one that does. -/
theorem success_field_always_true (e1 : Env1) (e2 : Env2) :
    (path1 e1).lookup "success" = some (.bool true)
  ∧ (path2 e2).lookup "success" = some (.bool true)
  ∧ (path1 e1).lookup "passed" = some (.bool (path1Passed e1))
  ∧ (path2 e2).lookup "passed" = some (.bool (path2Passed e2)) :=
  ⟨rfl, rfl, rfl, rfl⟩

example : pyEq (.list [.int 1]) (.list [.bool true]) = true := by rfl
example : cleanCode "x ```python\ncode\n``` y" = "code" := by rfl
example : approvedOf (fun _ => some (.obj [("valid", .bool true)])) "z" = true := by rfl
example : approvedOf (fun _ => Option.none) "z" = false := by rfl
